import Mathlib

/-!
Shallow embedding of the ventilation control sketch
(src/controle_ventilation_cave/controle_ventilation_cave.ino).

Machine integers (`int`, `long`) are modelled as `ℤ` (all values that occur
are far from the 16-bit and 32-bit limits, so no wrap-around can occur); the
humidity reading (a `float`) is modelled as `ℚ` (every finite IEEE float
value is a rational).  The Arduino `round` macro rounds half away from zero
(for x >= 0 it truncates x + 0.5, for x < 0 it truncates x - 0.5); it is
embedded as `cround`.  C integer division truncates toward zero and is
embedded as `Int.tdiv`.  The float constant `PERCENT_POWER_STEP = 16.67` is
embedded as the exact rational 1667/100; for every step count reachable from
an integer humidity (0 to 5) the rounded product of the binary32 computation
agrees with the rounded exact product, so the embedding is extensionally
faithful on the whole integer input domain.
-/

namespace VentilationCave

set_option maxRecDepth 100000

set_option maxHeartbeats 1000000

/-- Constant NB_STEPS from the source: number of rotation steps. -/
def NB_STEPS : ℤ := 6

/-- Constant MIN_RATE_POWER from the source: low humidity threshold. -/
def MIN_RATE_POWER : ℤ := 50

/-- Constant MAX_RATE_POWER from the source: high humidity threshold. -/
def MAX_RATE_POWER : ℤ := 80

/-- Constant PERCENT_POWER_STEP from the source (float 16.67), as an exact rational. -/
def PERCENT_POWER_STEP : ℚ := 1667 / 100

/-- Constant MIN_POWER from the source: minimum motor power. -/
def MIN_POWER : ℤ := 17

/-- Constant ROTATION_MAX from the source: maximal rotation angle. -/
def ROTATION_MAX : ℤ := 990

/-- Constant ROTATION_STEP from the source: rotation angle per step. -/
def ROTATION_STEP : ℤ := 165

/-- The Arduino `round` macro: round to nearest, half away from zero. -/
def cround (q : ℚ) : ℤ := if 0 ≤ q then ⌊q + 1 / 2⌋ else ⌈q - 1 / 2⌉

/-- C conversion from a floating value to an integer type: truncation toward zero. -/
def ctrunc (q : ℚ) : ℤ := if 0 ≤ q then ⌊q⌋ else ⌈q⌉

/-- Function positionMoteur from the source.  The argument of the source
call `round((h - MIN_RATE_POWER) / 5)` is a C integer division of two ints,
so the rounding is applied to an already integral value. -/
def positionMoteur (h : ℤ) : ℤ :=
  if h < 0 then -1
  else if h ≤ MIN_RATE_POWER then 0
  else if h ≥ MAX_RATE_POWER then NB_STEPS
  else cround ((Int.tdiv (h - MIN_RATE_POWER) 5 : ℤ) : ℚ)

/-- Function rotationMoteur from the source.  The global variable `h_avant`
read by the source function is passed explicitly. -/
def rotationMoteur (h h_avant : ℤ) : ℤ :=
  let pos_h := positionMoteur h
  let pos_ha := positionMoteur h_avant
  let delta_pos := if pos_h ≥ 0 ∧ pos_ha ≥ 0 then pos_h - pos_ha else 0;
  -delta_pos

/-- Function puissanceMoteur from the source: the inner division
`(h - MIN_RATE_POWER) / 5` is a truncating C integer division of two ints,
performed before the multiplication by the float PERCENT_POWER_STEP. -/
def puissanceMoteur (h : ℤ) : ℤ :=
  if h ≤ MIN_RATE_POWER then MIN_POWER
  else if h ≥ MAX_RATE_POWER then 100
  else cround (((Int.tdiv (h - MIN_RATE_POWER) 5 : ℤ) : ℚ) * PERCENT_POWER_STEP)

/-- The quantization performed by the loop, source line `h = round(humidite / 5) * 5`. -/
def quantize (humidite : ℚ) : ℤ := cround (humidite / 5) * 5

/-- One iteration of the source `loop`, restricted to its control content:
given the persisted state `h_avant` and the humidity reading, it returns the
argument passed to `myStepper.step` (`none` when no step command is issued)
and the new value of `h_avant`.  On the first pass (`h_avant == -1`) the
source executes `h_avant = humidite`, a float-to-int truncating conversion,
and issues no motor command; otherwise it quantizes, computes the rotation,
steps the motor by `r * ROTATION_STEP` and saves `h`.  Display and serial
output are external collaborators without control content and are omitted. -/
def loopCycle (h_avant : ℤ) (humidite : ℚ) : Option ℤ × ℤ :=
  if h_avant = -1 then
    (none, ctrunc humidite)
  else
    let h := quantize humidite
    let r := rotationMoteur h h_avant
    (some (r * ROTATION_STEP), h)

/-! Integer-only unfoldings of the two step functions.  `cround` applied to
an integer is the identity, and `cround` applied to a nonnegative multiple of
the power step is an integer floor; the lemmas below let the finite-domain
claims be settled by kernel evaluation over `ℤ` alone. -/

theorem cround_intCast (k : ℤ) : cround (k : ℚ) = k := by
  unfold cround
  split
  · rw [Int.floor_int_add]
    norm_num
  · rw [show ((k : ℚ) - 1 / 2) = -(1 / 2) + (k : ℚ) by ring, Int.ceil_add_int]
    norm_num

theorem cround_mul_percent (k : ℤ) (hk : 0 ≤ k) :
    cround ((k : ℚ) * PERCENT_POWER_STEP) = (1667 * k + 50) / 100 := by
  have h0 : (0 : ℚ) ≤ (k : ℚ) * PERCENT_POWER_STEP := by
    apply mul_nonneg
    · exact_mod_cast hk
    · norm_num [PERCENT_POWER_STEP]
  unfold cround
  rw [if_pos h0,
    show (k : ℚ) * PERCENT_POWER_STEP + 1 / 2
        = ((1667 * k + 50 : ℤ) : ℚ) / ((100 : ℕ) : ℚ) by
      unfold PERCENT_POWER_STEP; push_cast; ring,
    Rat.floor_intCast_div_natCast]
  norm_num

/-- Integer-only mirror of `positionMoteur`. -/
def positionAlt (h : ℤ) : ℤ :=
  if h < 0 then -1
  else if h ≤ 50 then 0
  else if h ≥ 80 then 6
  else Int.tdiv (h - 50) 5

theorem position_eq_alt (h : ℤ) : positionMoteur h = positionAlt h := by
  unfold positionMoteur positionAlt MIN_RATE_POWER MAX_RATE_POWER NB_STEPS
  rw [cround_intCast]

/-- Integer-only mirror of `puissanceMoteur`. -/
def puissanceAlt (h : ℤ) : ℤ :=
  if h ≤ 50 then 17
  else if h ≥ 80 then 100
  else (1667 * Int.tdiv (h - 50) 5 + 50) / 100

theorem puissance_eq_alt (h : ℤ) : puissanceMoteur h = puissanceAlt h := by
  unfold puissanceMoteur puissanceAlt MIN_RATE_POWER MAX_RATE_POWER MIN_POWER
  split_ifs with h1 h2
  · rfl
  · rfl
  · exact cround_mul_percent _ (Int.tdiv_nonneg (by omega) (by norm_num))

theorem rotationMoteur_def (h ha : ℤ) :
    rotationMoteur h ha
      = -(if 0 ≤ positionMoteur h ∧ 0 ≤ positionMoteur ha
          then positionMoteur h - positionMoteur ha else 0) := rfl

theorem positionMoteur_nonneg (h : ℤ) (hh : 0 ≤ h) : 0 ≤ positionMoteur h := by
  rw [position_eq_alt]
  unfold positionAlt
  split_ifs
  · omega
  · norm_num
  · norm_num
  · exact Int.tdiv_nonneg (by omega) (by norm_num)

/-- The PositionMapper contract exactly as the specification words it, with
the inner division read as real division under the rounding. -/
def positionSpecRound (h : ℤ) : ℤ :=
  if h < 0 then -1
  else if h ≤ 50 then 0
  else if h ≥ 80 then 6
  else cround (((h : ℚ) - 50) / 5)

/-- The PositionMapper contract with the inner division read as the C
truncating integer division the source performs. -/
def positionSpecTrunc (h : ℤ) : ℤ :=
  if h < 0 then -1
  else if h ≤ 50 then 0
  else if h ≥ 80 then 6
  else Int.tdiv (h - 50) 5

/-- The PowerCalculator mid-range formula as the specification words it:
round the product of the truncated step count with 16.67. -/
def powerSpecMid (h : ℤ) : ℤ :=
  cround (((Int.tdiv (h - 50) 5 : ℤ) : ℚ) * (1667 / 100))

-- scratch sanity checks
example : positionMoteur 53 = 0 := by rw [position_eq_alt]; decide
example : positionMoteur 55 = 1 := by rw [position_eq_alt]; decide
example : positionMoteur 79 = 5 := by rw [position_eq_alt]; decide
example : positionMoteur 80 = 6 := by decide
example : positionMoteur (-3) = -1 := by decide
example : puissanceMoteur 51 = 0 := by rw [puissance_eq_alt]; decide
example : puissanceMoteur 55 = 17 := by rw [puissance_eq_alt]; decide
example : puissanceMoteur 60 = 33 := by rw [puissance_eq_alt]; decide
example : puissanceMoteur 65 = 50 := by rw [puissance_eq_alt]; decide
example : puissanceMoteur 70 = 67 := by rw [puissance_eq_alt]; decide
example : puissanceMoteur 75 = 83 := by rw [puissance_eq_alt]; decide
example : puissanceMoteur 80 = 100 := by decide
example : rotationMoteur 80 50 = -6 := by decide
example : quantize 53 = 55 := by norm_num [quantize, cround]
example : loopCycle (-1) 53 = (none, 53) := by norm_num [loopCycle, ctrunc]
example : ∀ h ∈ Finset.Icc (0:ℤ) 100, 0 ≤ positionAlt h ∧ positionAlt h ≤ 6 := by decide

/-- C1, counterexample: at the integer humidity 51 the power is 0, which is
below MIN_POWER and below the power at humidity 50, so on the full integer
domain [0,100] the claimed range [17,100] and the claimed monotonicity both
fail (the truncating step count is 0 for 51..54). -/
theorem puissance_range_fails_at_51 :
    puissanceMoteur 51 = 0 ∧ puissanceMoteur 51 < MIN_POWER ∧
      puissanceMoteur 51 < puissanceMoteur 50 := by
  refine ⟨?_, ?_, ?_⟩ <;> simp only [puissance_eq_alt, MIN_POWER] <;> decide

/-- C1, amended: for every multiple of 5 in [0,100] — that is, every value
the quantizer can hand to the power calculation — puissanceMoteur lies in
[MIN_POWER, 100] and is non-decreasing between such values. -/
theorem puissance_bounds_mono_on_quantized :
    ∀ h ∈ Finset.Icc (0 : ℤ) 100, 5 ∣ h →
      (MIN_POWER ≤ puissanceMoteur h ∧ puissanceMoteur h ≤ 100) ∧
      ∀ h2 ∈ Finset.Icc (0 : ℤ) 100, 5 ∣ h2 → h ≤ h2 →
        puissanceMoteur h ≤ puissanceMoteur h2 := by
  simp only [puissance_eq_alt, MIN_POWER]
  decide

/-- C1, witness: the amended bound and monotonicity at the quantized
humidities 55 and 70. -/
theorem puissance_bounds_mono_on_quantized_witness :
    (MIN_POWER ≤ puissanceMoteur 55 ∧ puissanceMoteur 55 ≤ 100) ∧
      puissanceMoteur 55 ≤ puissanceMoteur 70 :=
  ⟨(puissance_bounds_mono_on_quantized 55 (by decide) (by decide)).1,
    (puissance_bounds_mono_on_quantized 55 (by decide) (by decide)).2
      70 (by decide) (by decide) (by decide)⟩

/-- C2, counterexample: with a first reading of 53 the loop seeds the state
with 53 (the reading truncated to an int), not with the quantized humidity
55, so the first cycle does not seed the state with the nearest multiple
of 5. -/
theorem first_cycle_seed_not_quantized :
    loopCycle (-1) 53 = (none, 53) ∧ quantize 53 = 55 ∧ (53 : ℤ) ≠ 55 := by
  refine ⟨?_, ?_, by decide⟩
  · norm_num [loopCycle, ctrunc]
  · norm_num [quantize, cround]

/-- C2, amended: on the first cycle (state sentinel -1) the loop seeds the
persisted state with the reading truncated toward zero to an integer (not
the quantized humidity) and commands no actuator movement before
transitioning to the steady state. -/
theorem first_cycle_seeds_trunc_no_motion :
    ∀ humidite : ℚ, loopCycle (-1) humidite = (none, ctrunc humidite) := by
  intro humidite
  unfold loopCycle
  rw [if_pos rfl]

/-- C3, counterexample: at h = 53 the source returns position 0 (the
truncating integer division gives step 3 / 5 = 0) while the claimed
round((h - 50) / 5) with real division gives round(0.6) = 1. -/
theorem position_round_div_fails_at_53 :
    positionMoteur 53 = 0 ∧ positionSpecRound 53 = 1 ∧
      positionSpecRound 53 ≠ positionMoteur 53 := by
  have h1 : positionMoteur 53 = 0 := by rw [position_eq_alt]; decide
  have h2 : positionSpecRound 53 = 1 := by norm_num [positionSpecRound, cround]
  exact ⟨h1, h2, by rw [h1, h2]; decide⟩

/-- C3, amended: positionMoteur equals the piecewise definition in which the
intermediate quotient is the C truncating integer division (h - 50) tdiv 5,
and the guard regions are exhaustive and mutually exclusive over ℤ. -/
theorem position_piecewise_truncdiv :
    ∀ h : ℤ, positionMoteur h = positionSpecTrunc h ∧
      (h < 0 ∨ (0 ≤ h ∧ h ≤ 50) ∨ (50 < h ∧ h < 80) ∨ 80 ≤ h) ∧
      ¬(h < 0 ∧ 0 ≤ h) ∧ ¬(h ≤ 50 ∧ 50 < h) ∧ ¬(h < 80 ∧ 80 ≤ h) := by
  intro h
  refine ⟨?_, by omega, by omega, by omega, by omega⟩
  rw [position_eq_alt]
  unfold positionAlt positionSpecTrunc
  rfl

/-- C3, witness: the amended piecewise reading evaluated at h = 53. -/
theorem position_piecewise_truncdiv_witness :
    positionMoteur 53 = positionSpecTrunc 53 :=
  (position_piecewise_truncdiv 53).1

/-- C4: on the integer domain [0,100] the position lies in [0, NB_STEPS]
and is non-decreasing in the humidity. -/
theorem position_bounds_and_monotone :
    (∀ h ∈ Finset.Icc (0 : ℤ) 100,
        0 ≤ positionMoteur h ∧ positionMoteur h ≤ NB_STEPS) ∧
      ∀ h1 ∈ Finset.Icc (0 : ℤ) 100, ∀ h2 ∈ Finset.Icc (0 : ℤ) 100,
        h1 ≤ h2 → positionMoteur h1 ≤ positionMoteur h2 := by
  constructor
  · simp only [position_eq_alt, NB_STEPS]
    decide
  · simp only [position_eq_alt]
    decide

/-- C5: strictly between the thresholds 50 and 80 the power equals the
rounded product of the truncating integer quotient (h - 50) tdiv 5 with
16.67, the truncation being performed before the scaling. -/
theorem puissance_formula_mid_range :
    ∀ h : ℤ, 50 < h → h < 80 → puissanceMoteur h = powerSpecMid h := by
  intro h h1 h2
  unfold puissanceMoteur powerSpecMid MIN_RATE_POWER MAX_RATE_POWER PERCENT_POWER_STEP
  rw [if_neg (by omega), if_neg (by omega)]

/-- C5, witness: the formula at the mid-range humidity 60. -/
theorem puissance_formula_mid_range_witness :
    puissanceMoteur 60 = powerSpecMid 60 :=
  puissance_formula_mid_range 60 (by decide) (by decide)

/-- C6: when either humidity maps to the sentinel position -1 — which
happens exactly for a negative humidity — the rotation is 0, so the
actuator never moves on invalid input. -/
theorem rotation_zero_on_invalid :
    ∀ h ha : ℤ,
      ((positionMoteur h = -1 ∨ positionMoteur ha = -1) →
        rotationMoteur h ha = 0) ∧
      (positionMoteur h = -1 ↔ h < 0) := by
  intro h ha
  constructor
  · intro hor
    have hcond : ¬(0 ≤ positionMoteur h ∧ 0 ≤ positionMoteur ha) := by
      rcases hor with h1 | h1 <;> rw [h1] <;> intro hc <;> omega
    rw [rotationMoteur_def, if_neg hcond, neg_zero]
  · constructor
    · intro heq
      by_contra hlt
      push_neg at hlt
      have := positionMoteur_nonneg h hlt
      omega
    · intro hlt
      unfold positionMoteur
      rw [if_pos hlt]

/-- C6, witness: the fail-safe law and the sentinel characterisation at the
invalid humidity -3 against the valid humidity 10. -/
theorem rotation_zero_on_invalid_witness :
    rotationMoteur (-3) 10 = 0 ∧ (positionMoteur (-3) = -1 ↔ (-3 : ℤ) < 0) :=
  ⟨(rotation_zero_on_invalid (-3) 10).1 (Or.inl (by decide)),
    (rotation_zero_on_invalid (-3) 10).2⟩

/-- C7: when both humidities are non-negative the rotation is antisymmetric
under swapping its two inputs and equals the negated position difference. -/
theorem rotation_antisymm_neg_delta :
    ∀ h ha : ℤ, 0 ≤ h → 0 ≤ ha →
      rotationMoteur h ha = -rotationMoteur ha h ∧
      rotationMoteur h ha = -(positionMoteur h - positionMoteur ha) := by
  intro h ha hh hha
  have p1 := positionMoteur_nonneg h hh
  have p2 := positionMoteur_nonneg ha hha
  rw [rotationMoteur_def, rotationMoteur_def, if_pos ⟨p1, p2⟩, if_pos ⟨p2, p1⟩]
  constructor <;> ring

/-- C7, witness: antisymmetry and the negated delta at humidities 80 and 50. -/
theorem rotation_antisymm_neg_delta_witness :
    rotationMoteur 80 50 = -rotationMoteur 50 80 ∧
      rotationMoteur 80 50 = -(positionMoteur 80 - positionMoteur 50) :=
  rotation_antisymm_neg_delta 80 50 (by decide) (by decide)

/-- C8: from previous quantized humidity 50 (position 0) to current 80
(position 6) the rotation is -6, the loop commands the stepper with
-6 * ROTATION_STEP = -990, and 990 is the configured maximum rotation. -/
theorem scenario_e_max_rotation :
    rotationMoteur 80 50 = -6 ∧
      rotationMoteur 80 50 * ROTATION_STEP = -990 ∧
      loopCycle 50 80 = (some (-990), 80) ∧
      (-990 : ℤ) = -ROTATION_MAX := by
  refine ⟨by decide, by decide, ?_, by decide⟩
  have hstep : loopCycle 50 80
      = (some (rotationMoteur (quantize 80) 50 * ROTATION_STEP), quantize 80) := rfl
  have hq : quantize 80 = 80 := by norm_num [quantize, cround]
  rw [hstep, hq]
  decide

/-- C9: the quantization round(h / 5) * 5 is idempotent on every rational
input, and being a total function it returns a value for every input. -/
theorem quantize_idempotent :
    ∀ h : ℚ, quantize ((quantize h : ℤ) : ℚ) = quantize h := by
  intro h
  unfold quantize
  rw [show (((cround (h / 5) * 5 : ℤ) : ℚ)) / 5 = ((cround (h / 5) : ℤ) : ℚ) by
        push_cast; ring,
    cround_intCast]

/-- C10: every negative humidity falls into the h <= 50 branch of the power
calculation, so the power is MIN_POWER with no sentinel propagation, while
the position function maps the same input to the sentinel -1. -/
theorem puissance_min_on_negative :
    ∀ h : ℤ, h < 0 → puissanceMoteur h = MIN_POWER ∧ positionMoteur h = -1 := by
  intro h hh
  constructor
  · unfold puissanceMoteur
    rw [if_pos (show h ≤ MIN_RATE_POWER by unfold MIN_RATE_POWER; omega)]
  · unfold positionMoteur
    rw [if_pos hh]

/-- C10, witness: the power floor and the position sentinel at humidity -5. -/
theorem puissance_min_on_negative_witness :
    puissanceMoteur (-5) = MIN_POWER ∧ positionMoteur (-5) = -1 :=
  puissance_min_on_negative (-5) (by decide)

end VentilationCave
